import Mathlib

/-!
Verification of the spec of `altair/magics.py`, the IPython cell-magic
adapter for rendering Vega / Vega-Lite specifications.

The Python module is shallowly embedded below: Python values that the
module inspects become the inductive `PyVal`; Python exceptions become
`PyError`; externally observable effects that the claims talk about
(invoking the JSON/YAML parser on the cell text, emitting a warning)
become an explicit event trace `List Event`.  External collaborators
(the notebook namespace, the data transformer selected from the
`TRANSFORMERS` table, and the JSON/YAML parsers) are fields of a
`MagicEnv`, quantified over in the theorems.
-/

namespace AltairMagics

/-- Model of the Python runtime values that `magics.py` inspects:
`None`, `str`, `dict` (association list of string keys, insertion
ordered, as CPython dicts are), `list`, `pandas.DataFrame` (opaque,
identified by an id), and any other object (carrying its type name). -/
inductive PyVal where
  | none
  | str (s : String)
  | dict (entries : List (String × PyVal))
  | list (items : List PyVal)
  | dataframe (id : Nat)
  | other (ty : String)

/-- The Python exceptions the module can surface to the caller. -/
inductive PyError where
  | nameError (name : String)
  | valueError
  | typeError
  | assertionError
deriving DecidableEq, Repr

/-- Observable effects relevant to the claims: the cell body being
handed to the JSON or YAML parser, and a warning being emitted. -/
inductive Event where
  | parsedCell (fmt : String)
  | warned (msg : String)
deriving DecidableEq, Repr

/-- The value a renderer constructor is applied to: the chart family
and version select the constructor from `RENDERERS`, and the finished
spec is passed to it.  The constructors themselves are external
display classes, so the model records the selection and the spec. -/
structure Rendered where
  family : String
  version : String
  spec : PyVal

/-- Key structure of the module-level `RENDERERS` table: chart family
to list of supported version strings ('vega' has versions 2 and 3 via
`vega_v2.Vega` / `vega_v3.Vega`; 'vega-lite' has versions 1 and 2 via
`vegalite_v1.VegaLite` / `vegalite_v2.VegaLite`). -/
def RENDERERS : List (String × List String) :=
  [("vega", ["2", "3"]), ("vega-lite", ["1", "2"])]

/-- Key structure of the module-level `TRANSFORMERS` table; it has the
same two-level keys as `RENDERERS` (the values are external
data-transformer handles). -/
def TRANSFORMERS : List (String × List String) :=
  [("vega", ["2", "3"]), ("vega-lite", ["1", "2"])]

/-- Version keys of `RENDERERS` for a chart family. -/
def rendererVersions (family : String) : List String :=
  (RENDERERS.lookup family).getD []

/-- Module-level names bound by the import statements at the top of
`magics.py`.  Note that `warnings` is NOT among them: the module never
imports `warnings`, although `_prepare_data` refers to it. -/
def moduleImports : List String :=
  ["json", "IPython", "magic", "magic_arguments", "pd", "six", "pipe",
   "vegalite_v1", "vegalite_v2", "vega_v2", "vega_v3"]

/-- External collaborators of the module, provided by the environment:
the interactive namespace `user_ns` of the IPython shell, the data
transformer obtained from the `TRANSFORMERS` table (contract, per the
spec: converts a dataframe into an embeddable mapping - inline row
records or a reference object; the claims settled here do not depend
on which version entry of the table is selected, so a single handle is
carried), and the `json.loads` / `yaml.load` parsers for cell text. -/
structure MagicEnv where
  userNs : List (String × PyVal)
  transform : Nat → List (String × PyVal)
  parseJson : String → Except PyError PyVal
  parseYaml : String → Except PyError PyVal

/-- CPython dict item assignment `d[k] = v` on the underlying entry
list: overwrite in place if the key is present, else append. -/
def setKey : List (String × PyVal) → String → PyVal → List (String × PyVal)
  | [], k, v => [(k, v)]
  | (k', v') :: rest, k, v =>
      if k' = k then (k, v) :: rest else (k', v') :: setKey rest k v

/-- Python item assignment `x[k] = v` for a string key: succeeds on a
dict, raises `TypeError` on the non-dict values these flows can reach
(`None`, strings, lists, arbitrary objects without item support). -/
def pySetItem : PyVal → String → PyVal → Except PyError PyVal
  | .dict es, k, v => .ok (.dict (setKey es k v))
  | _, _, _ => .error .typeError

/-- Python type name of a value, as used in the warning message of
`_prepare_data`. -/
def pyTypeName : PyVal → String
  | .none => "NoneType"
  | .str _ => "str"
  | .dict _ => "dict"
  | .list _ => "list"
  | .dataframe _ => "DataFrame"
  | .other ty => ty

/-- `_prepare_data(data, data_transformers)`: `None` and dicts pass
through; a dataframe goes through the selected transformer; a string
becomes `a dict with a url key`; any other value reaches the
`warnings.warn(...)` line - and since the name `warnings` is not bound
at module level (see `moduleImports`), that line raises `NameError`
instead of warning and returning the value. -/
def _prepare_data (transform : Nat → List (String × PyVal)) :
    PyVal → List Event × Except PyError PyVal
  | .none => ([], .ok .none)
  | .dict es => ([], .ok (.dict es))
  | .dataframe i => ([], .ok (.dict (transform i)))
  | .str s => ([], .ok (.dict [("url", .str s)]))
  | v =>
      if "warnings" ∈ moduleImports then
        ([.warned ("data of type " ++ pyTypeName v ++ " not recognized")], .ok v)
      else
        ([], .error (.nameError "warnings"))

/-- `_get_variable(name)`: look the name up in the interactive
namespace; raise `NameError` when absent, return the stored value
otherwise.  Membership is the only check performed. -/
def _get_variable (ns : List (String × PyVal)) (name : String) :
    Except PyError PyVal :=
  match ns.lookup name with
  | some v => .ok v
  | Option.none => .error (.nameError name)

/-- Python `s.split(':')` on the character list of `s`: splits at every
colon, keeping empty segments; the result always has one more segment
than there are colons. -/
def splitColon : List Char → List (List Char)
  | [] => [[]]
  | c :: rest =>
      if c = ':' then [] :: splitColon rest
      else
        match splitColon rest with
        | [] => [[c]]
        | h :: t => (c :: h) :: t

/-- The local `namevar` function of the `vega` magic: split the token
on `:`; one segment yields `(s, s)`, two segments yield
`(slot, variable)`, anything else raises `ValueError`. -/
def namevar (s : String) : Except PyError (String × String) :=
  match (splitColon s.toList).map List.asString with
  | [x] => .ok (x, x)
  | [x, y] => .ok (x, y)
  | _ => .error .valueError

/-- `list(map(namevar, args.data))`: resolve every token left to
right, propagating the first `ValueError`. -/
def mapNamevar : List String → Except PyError (List (String × String))
  | [] => .ok []
  | s :: rest =>
      match namevar s with
      | .error e => .error e
      | .ok p =>
          match mapNamevar rest with
          | .error e => .error e
          | .ok ps => .ok (p :: ps)

/-- The loop body of the `vega` magic over the resolved
(slot, variable) pairs: fetch the variable, normalize it, write the
slot name under the `name` key of the prepared entry, and collect the
entries appended to `spec['data']`, in order, together with the events
emitted along the way. -/
def buildDataEntries (env : MagicEnv) :
    List (String × String) → List Event × Except PyError (List PyVal)
  | [] => ([], .ok [])
  | (slot, var) :: rest =>
      match _get_variable env.userNs var with
      | .error e => ([], .error e)
      | .ok val =>
          match _prepare_data env.transform val with
          | (evs, .error e) => (evs, .error e)
          | (evs, .ok prepped) =>
              match pySetItem prepped "name" (.str slot) with
              | .error e => (evs, .error e)
              | .ok entry =>
                  match buildDataEntries env rest with
                  | (evs2, .error e) => (evs ++ evs2, .error e)
                  | (evs2, .ok entries) => (evs ++ evs2, .ok (entry :: entries))

/-- Arguments of the `vega` cell magic after argparse: any number of
positional dataset tokens, a version flag (default "3"), a yaml
flag. -/
structure VegaArgs where
  data : List String
  version : String
  yaml : Bool
deriving DecidableEq, Repr

/-- Arguments of the `vegalite` cell magic after argparse: at most one
positional dataset token, a version flag (default "2"), a yaml
flag. -/
structure VegaliteArgs where
  data : Option String
  version : String
  yaml : Bool
deriving DecidableEq, Repr

/-- The `vega` cell magic.  In source order: assert the version is a
key of `RENDERERS` for family vega; resolve the dataset tokens with
`namevar` (re-raising any `ValueError`); parse the cell as YAML or
JSON; when there are dataset pairs, set `spec['data'] = []` and run the
per-pair loop; construct the selected renderer with the finished
spec. -/
def vega (env : MagicEnv) (args : VegaArgs) (cell : String) :
    List Event × Except PyError Rendered :=
  if args.version ∈ rendererVersions "vega" then
    match mapNamevar args.data with
    | .error _ => ([], .error .valueError)
    | .ok pairs =>
        let fmt := if args.yaml then "yaml" else "json"
        match (if args.yaml then env.parseYaml cell else env.parseJson cell) with
        | .error e => ([.parsedCell fmt], .error e)
        | .ok spec =>
            if pairs.isEmpty then
              ([.parsedCell fmt], .ok ⟨"vega", args.version, spec⟩)
            else
              match pySetItem spec "data" (.list []) with
              | .error e => ([.parsedCell fmt], .error e)
              | .ok spec1 =>
                  match buildDataEntries env pairs with
                  | (evs, .error e) => ([.parsedCell fmt] ++ evs, .error e)
                  | (evs, .ok entries) =>
                      match pySetItem spec1 "data" (.list entries) with
                      | .error e => ([.parsedCell fmt] ++ evs, .error e)
                      | .ok spec2 =>
                          ([.parsedCell fmt] ++ evs,
                           .ok ⟨"vega", args.version, spec2⟩)
  else ([], .error .assertionError)

/-- The `vegalite` cell magic.  In source order: assert the version is
a key of `RENDERERS` for family vega-lite; parse the cell as YAML or
JSON; when a dataset token was given, fetch that variable by the WHOLE
token (no colon splitting happens on this path), normalize it, and
assign it to `spec['data']`; construct the selected renderer. -/
def vegalite (env : MagicEnv) (args : VegaliteArgs) (cell : String) :
    List Event × Except PyError Rendered :=
  if args.version ∈ rendererVersions "vega-lite" then
    let fmt := if args.yaml then "yaml" else "json"
    match (if args.yaml then env.parseYaml cell else env.parseJson cell) with
    | .error e => ([.parsedCell fmt], .error e)
    | .ok spec =>
        match args.data with
        | Option.none => ([.parsedCell fmt], .ok ⟨"vega-lite", args.version, spec⟩)
        | some varName =>
            match _get_variable env.userNs varName with
            | .error e => ([.parsedCell fmt], .error e)
            | .ok val =>
                match _prepare_data env.transform val with
                | (evs, .error e) => ([.parsedCell fmt] ++ evs, .error e)
                | (evs, .ok prepped) =>
                    match pySetItem spec "data" prepped with
                    | .error e => ([.parsedCell fmt] ++ evs, .error e)
                    | .ok spec2 =>
                        ([.parsedCell fmt] ++ evs,
                         .ok ⟨"vega-lite", args.version, spec2⟩)
  else ([], .error .assertionError)

/-! ## Helper lemmas -/

/-- Looking a key up after assigning it yields the assigned value. -/
theorem lookup_setKey (es : List (String × PyVal)) (k : String) (v : PyVal) :
    (setKey es k v).lookup k = some v := by
  induction es with
  | nil => simp [setKey]
  | cons hd tl ih =>
      obtain ⟨k', v'⟩ := hd
      by_cases h : k' = k
      · simp [setKey, h]
      · have hk : (k == k') = false := by simp [Ne.symm h]
        simp [setKey, h, List.lookup, hk, ih]

/-- `splitColon` never returns the empty list. -/
theorem splitColon_ne_nil (cs : List Char) : splitColon cs ≠ [] := by
  cases cs with
  | nil => simp [splitColon]
  | cons c rest =>
      by_cases h : c = ':'
      · simp [splitColon, h]
      · simp only [splitColon, h, if_false]
        cases splitColon rest <;> simp

/-- A colon-free string is split into the single segment that is the
whole string. -/
theorem splitColon_of_not_mem (cs : List Char) (h : (':' : Char) ∉ cs) :
    splitColon cs = [cs] := by
  induction cs with
  | nil => rfl
  | cons c rest ih =>
      have hc : c ≠ ':' := fun hc => h (hc ▸ List.mem_cons_self c rest)
      have hrest : (':' : Char) ∉ rest := fun hr => h (List.mem_cons_of_mem c hr)
      simp [splitColon, hc, ih hrest]

/-- Splitting a string of the form `a ++ ":" ++ b` with colon-free `a`
peels off `a` as the first segment. -/
theorem splitColon_append (a b : List Char) (ha : (':' : Char) ∉ a) :
    splitColon (a ++ ':' :: b) = a :: splitColon b := by
  induction a with
  | nil => simp [splitColon]
  | cons c rest ih =>
      have hc : c ≠ ':' := fun hc => ha (hc ▸ List.mem_cons_self c rest)
      have hrest : (':' : Char) ∉ rest := fun hr => ha (List.mem_cons_of_mem c hr)
      simp [splitColon, hc, ih hrest]

/-- The number of segments is one more than the number of colons. -/
theorem splitColon_length (cs : List Char) :
    (splitColon cs).length = cs.count ':' + 1 := by
  induction cs with
  | nil => rfl
  | cons c rest ih =>
      by_cases h : c = ':'
      · simp [splitColon, h, List.count_cons, ih]
      · simp only [splitColon, h, if_false]
        have hne := splitColon_ne_nil rest
        cases hsp : splitColon rest with
        | nil => exact absurd hsp hne
        | cons hd tl =>
            rw [hsp] at ih
            simp_all [List.count_cons, h]

/-- Rebuilding a string from its character list is the identity. -/
theorem asString_toList (s : String) : s.toList.asString = s := rfl

/-- Rebuilding a string from its underlying data is the identity. -/
theorem asString_data (s : String) : s.data.asString = s := rfl

/-- Character list of a concatenation. -/
theorem toList_append (a b : String) : (a ++ b).toList = a.toList ++ b.toList := by
  simp [String.toList, String.data_append]

/-- `namevar` on a colon-free token: the token is both slot and
variable name. -/
theorem namevar_single (s : String) (h : (':' : Char) ∉ s.toList) :
    namevar s = .ok (s, s) := by
  unfold namevar
  rw [splitColon_of_not_mem s.toList h]
  simp [asString_toList, asString_data]

/-- `namevar` on a token with exactly one colon: the part before is
the slot, the part after is the variable name. -/
theorem namevar_pair (a b : String) (ha : (':' : Char) ∉ a.toList)
    (hb : (':' : Char) ∉ b.toList) :
    namevar (a ++ ":" ++ b) = .ok (a, b) := by
  unfold namevar
  have h1 : (a ++ ":" ++ b).toList = a.toList ++ ':' :: b.toList := by
    rw [toList_append, toList_append]
    show a.toList ++ [':'] ++ b.toList = _
    simp
  rw [h1, splitColon_append a.toList b.toList ha, splitColon_of_not_mem b.toList hb]
  simp [asString_toList, asString_data]

/-- `namevar` errors (with `ValueError`) whenever the split has three
or more segments. -/
theorem namevar_error_of_three (s : String)
    (h : 3 ≤ (splitColon s.toList).length) : namevar s = .error .valueError := by
  unfold namevar
  cases hsp : splitColon s.toList with
  | nil => exact absurd hsp (splitColon_ne_nil _)
  | cons x tl =>
      cases tl with
      | nil => rw [hsp] at h; simp at h
      | cons y tl2 =>
          cases tl2 with
          | nil => rw [hsp] at h; simp at h
          | cons z tl3 => simp

/-- Every error produced by `namevar` is a `ValueError`. -/
theorem namevar_error_eq (s : String) (e : PyError)
    (h : namevar s = .error e) : e = .valueError := by
  unfold namevar at h
  rcases hsp : (splitColon s.toList).map List.asString with _ | ⟨x, _ | ⟨y, _ | ⟨z, tl⟩⟩⟩ <;>
    rw [hsp] at h <;> simp_all

/-- `pySetItem` succeeds only on dicts, and produces a dict. -/
theorem pySetItem_ok_dict (x : PyVal) (k : String) (v w : PyVal)
    (h : pySetItem x k v = .ok w) : ∃ fs, w = PyVal.dict fs := by
  cases x <;> simp [pySetItem] at h
  exact ⟨_, h.symm⟩

/-! ## Concrete environments used by the witnesses -/

/-- Environment with an empty interactive namespace. -/
def envEmpty : MagicEnv :=
  { userNs := []
    transform := fun _ => [("values", .list [])]
    parseJson := fun _ => .ok (.dict [("mark", .str "bar")])
    parseYaml := fun _ => .ok (.dict [("mark", .str "bar")]) }

/-- Environment binding `myvar` to a dataframe. -/
def envMyvar : MagicEnv :=
  { userNs := [("myvar", .dataframe 0)]
    transform := fun _ => [("values", .list [])]
    parseJson := fun _ => .ok (.dict [("mark", .str "bar")])
    parseYaml := fun _ => .ok (.dict [("mark", .str "bar")]) }

/-- Environment binding `b` (and nothing else) to a dataframe. -/
def envB : MagicEnv :=
  { userNs := [("b", .dataframe 0)]
    transform := fun _ => [("values", .list [])]
    parseJson := fun _ => .ok (.dict [("mark", .str "bar")])
    parseYaml := fun _ => .ok (.dict [("mark", .str "bar")]) }

/-- Environment binding `myvar` to `None`. -/
def envNoneVar : MagicEnv :=
  { userNs := [("myvar", PyVal.none)]
    transform := fun _ => [("values", .list [])]
    parseJson := fun _ => .ok (.dict [("mark", .str "bar")])
    parseYaml := fun _ => .ok (.dict [("mark", .str "bar")]) }

/-! ## Claims -/

/-- Claim C1: for both commands, a requested version string that is
not a key of the renderer table for the chart family makes the
invocation fail with an assertion failure, and the cell spec text is
never parsed: the event trace is empty, so no parse of the cell (and
no other effect) ever happens. -/
theorem unsupported_version_rejected_before_parse (env : MagicEnv)
    (vargs : VegaArgs) (largs : VegaliteArgs) (cellV cellL : String)
    (hv : vargs.version ∉ rendererVersions "vega")
    (hl : largs.version ∉ rendererVersions "vega-lite") :
    vega env vargs cellV = ([], .error .assertionError) ∧
    vegalite env largs cellL = ([], .error .assertionError) := by
  constructor
  · unfold vega; rw [if_neg hv]
  · unfold vegalite; rw [if_neg hl]

theorem unsupported_version_rejected_before_parse_witness :
    vega envEmpty ⟨[], "99", false⟩ "cell" = ([], .error .assertionError) ∧
    vegalite envEmpty ⟨Option.none, "99", false⟩ "cell" = ([], .error .assertionError) :=
  unsupported_version_rejected_before_parse envEmpty ⟨[], "99", false⟩
    ⟨Option.none, "99", false⟩ "cell" "cell" (by decide) (by decide)

/-- Claim C2 (code bug): a value that is neither `None`, nor a dict,
nor a dataframe, nor a string does NOT get the documented
warn-and-pass-through treatment: the module never imports `warnings`,
so the fallback branch of `_prepare_data` raises `NameError` on the
unbound name `warnings`.  Evaluated here at an arbitrary int value. -/
theorem prepare_data_unrecognized_raises
    (transform : Nat → List (String × PyVal)) :
    _prepare_data transform (.other "int") = ([], .error (.nameError "warnings")) ∧
    "warnings" ∉ moduleImports :=
  ⟨rfl, by decide⟩

/-- Claim C4: a dataset token with at most one colon resolves to a
(slot, variable-name) pair: a colon-free token `x` resolves to
`(x, x)` and a one-colon token `a:b` resolves to `(a, b)`. -/
theorem namevar_at_most_one_colon (s a b : String)
    (hs : (':' : Char) ∉ s.toList) (ha : (':' : Char) ∉ a.toList)
    (hb : (':' : Char) ∉ b.toList) :
    namevar s = .ok (s, s) ∧ namevar (a ++ ":" ++ b) = .ok (a, b) :=
  ⟨namevar_single s hs, namevar_pair a b ha hb⟩

theorem namevar_at_most_one_colon_witness :
    namevar "x" = .ok ("x", "x") ∧ namevar ("a" ++ ":" ++ "b") = .ok ("a", "b") :=
  namevar_at_most_one_colon "x" "a" "b" (by decide) (by decide) (by decide)

/-- Claim C5: a dataset argument with two or more colons makes token
resolution fail with `ValueError`, and the vega magic invoked with
such a token reports a `ValueError` to the caller. -/
theorem namevar_two_or_more_colons (env : MagicEnv) (s cell : String)
    (h : 2 ≤ s.toList.count ':') :
    namevar s = .error .valueError ∧
    vega env ⟨[s], "3", false⟩ cell = ([], .error .valueError) := by
  have hlen : 3 ≤ (splitColon s.toList).length := by
    rw [splitColon_length]; omega
  have hnv := namevar_error_of_three s hlen
  refine ⟨hnv, ?_⟩
  simp [vega, rendererVersions, RENDERERS, mapNamevar, hnv]

theorem namevar_two_or_more_colons_witness :
    namevar "a:b:c" = .error .valueError ∧
    vega envEmpty ⟨["a:b:c"], "3", false⟩ "cell" = ([], .error .valueError) :=
  namevar_two_or_more_colons envEmpty "a:b:c" "cell" (by decide)

/-- Claim C7: looking a variable up in the interactive namespace fails
with a `NameError` exactly when the name is absent; presence is the
only validation - a present value of any type whatsoever is returned
unchanged, with no type check. -/
theorem get_variable_name_check (ns : List (String × PyVal)) (name : String) :
    (ns.lookup name = Option.none →
      _get_variable ns name = .error (.nameError name)) ∧
    (∀ v : PyVal, ns.lookup name = some v → _get_variable ns name = .ok v) := by
  constructor
  · intro h; unfold _get_variable; rw [h]
  · intro v h; unfold _get_variable; rw [h]

theorem get_variable_name_check_witness :
    _get_variable [] "df" = .error (.nameError "df") ∧
    _get_variable [("df", PyVal.other "int")] "df" = .ok (.other "int") :=
  ⟨(get_variable_name_check [] "df").1 rfl,
   (get_variable_name_check [("df", PyVal.other "int")] "df").2 (.other "int") rfl⟩

/-- Claim C9: a plain string value is normalized by `_prepare_data` to
a dict wrapping the string under the url key. -/
theorem prepare_data_string_url (transform : Nat → List (String × PyVal))
    (s : String) :
    _prepare_data transform (.str s) = ([], .ok (.dict [("url", .str s)])) := rfl

/-- Every entry collected by the vega data loop is a dict: each one
passed through the name assignment `pySetItem _ "name" _`, which only
succeeds on dicts. -/
theorem buildDataEntries_ok_dict (env : MagicEnv) :
    ∀ pairs evs entries, buildDataEntries env pairs = (evs, .ok entries) →
      ∀ e ∈ entries, ∃ fs, e = PyVal.dict fs := by
  intro pairs
  induction pairs with
  | nil =>
      intro evs entries h e he
      simp [buildDataEntries] at h
      rw [h.2] at he
      simp at he
  | cons hd tl ih =>
      intro evs entries h e he
      obtain ⟨slot, var⟩ := hd
      unfold buildDataEntries at h
      cases hg : _get_variable env.userNs var with
      | error err => simp only [hg] at h; simp at h
      | ok val =>
          simp only [hg] at h
          cases hp : _prepare_data env.transform val with
          | mk evs1 r =>
              simp only [hp] at h
              cases r with
              | error err => simp at h
              | ok prepped =>
                  cases hs : pySetItem prepped "name" (.str slot) with
                  | error err => simp only [hs] at h; simp at h
                  | ok entry =>
                      simp only [hs] at h
                      cases hb : buildDataEntries env tl with
                      | mk evs2 r2 =>
                          simp only [hb] at h
                          cases r2 with
                          | error err => simp at h
                          | ok entries2 =>
                              simp only [Prod.mk.injEq, Except.ok.injEq] at h
                              rw [← h.2] at he
                              rcases List.mem_cons.mp he with he | he
                              · rw [he]
                                exact pySetItem_ok_dict prepped "name" (.str slot) entry hs
                              · exact ih evs2 entries2 hb e he

/-- Claim C3: the vega magic invoked with the single token `ds:myvar`,
where `myvar` holds a dataframe, produces a spec whose data key holds
a list with exactly one element, and that element has name field
`ds`. -/
theorem vega_named_dataset_entry (env : MagicEnv) (cell : String) (i : Nat)
    (es : List (String × PyVal))
    (hvar : env.userNs.lookup "myvar" = some (.dataframe i))
    (hparse : env.parseJson cell = .ok (.dict es)) :
    ∃ specEntries entryFields,
      (vega env ⟨["ds:myvar"], "3", false⟩ cell).2 =
        .ok ⟨"vega", "3", .dict specEntries⟩ ∧
      specEntries.lookup "data" = some (.list [.dict entryFields]) ∧
      entryFields.lookup "name" = some (.str "ds") := by
  have hnv : mapNamevar ["ds:myvar"] = .ok [("ds", "myvar")] := rfl
  refine ⟨setKey (setKey es "data" (.list [])) "data"
      (.list [.dict (setKey (env.transform i) "name" (.str "ds"))]),
    setKey (env.transform i) "name" (.str "ds"), ?_, lookup_setKey _ _ _,
    lookup_setKey _ _ _⟩
  simp [vega, rendererVersions, RENDERERS, hnv, hparse, buildDataEntries,
    _get_variable, hvar, _prepare_data, pySetItem]

theorem vega_named_dataset_entry_witness :
    ∃ specEntries entryFields,
      (vega envMyvar ⟨["ds:myvar"], "3", false⟩ "cell").2 =
        .ok ⟨"vega", "3", .dict specEntries⟩ ∧
      specEntries.lookup "data" = some (.list [.dict entryFields]) ∧
      entryFields.lookup "name" = some (.str "ds") :=
  vega_named_dataset_entry envMyvar "cell" 0 [("mark", .str "bar")] rfl rfl

/-- Claim C6 counterexample: the vegalite magic does NOT split its
dataset token on the colon.  With a namespace binding `b` (the part
after the colon) to a dataframe but not binding `a:b`, invoking
vegalite with token `a:b` fails with `NameError` for the WHOLE token
`a:b`; had the token been split as the claim states, the lookup of `b`
would have succeeded. -/
theorem vegalite_token_not_split_counterexample :
    (vegalite envB ⟨some "a:b", "2", false⟩ "cell").2 =
      .error (.nameError "a:b") ∧
    envB.userNs.lookup "b" = some (.dataframe 0) :=
  ⟨rfl, rfl⟩

/-- Claim C6 amended: only the multi-dataset vega magic splits dataset
tokens of the form `slot:name` on the colon (its `namevar` resolves a
one-colon token so that the variable name is the part after the
colon); the single-dataset vegalite magic performs no splitting and
looks the WHOLE token up in the namespace. -/
theorem vega_splits_vegalite_does_not (env : MagicEnv) (a b cell : String)
    (spec : PyVal)
    (ha : (':' : Char) ∉ a.toList) (hb : (':' : Char) ∉ b.toList)
    (habsent : env.userNs.lookup (a ++ ":" ++ b) = Option.none)
    (hparse : env.parseJson cell = .ok spec) :
    namevar (a ++ ":" ++ b) = .ok (a, b) ∧
    (vegalite env ⟨some (a ++ ":" ++ b), "2", false⟩ cell).2 =
      .error (.nameError (a ++ ":" ++ b)) := by
  refine ⟨namevar_pair a b ha hb, ?_⟩
  have hmem : ("2" : String) ∈ rendererVersions "vega-lite" := by decide
  simp [vegalite, hmem, hparse, _get_variable, habsent]

theorem vega_splits_vegalite_does_not_witness :
    namevar ("a" ++ ":" ++ "b") = .ok ("a", "b") ∧
    (vegalite envB ⟨some ("a" ++ ":" ++ "b"), "2", false⟩ "cell").2 =
      .error (.nameError ("a" ++ ":" ++ "b")) :=
  vega_splits_vegalite_does_not envB "a" "b" "cell"
    (.dict [("mark", .str "bar")]) (by decide) (by decide) rfl rfl

/-- Claim C8: with no dataset arguments, both commands return the
parsed cell spec completely unchanged: no data key is added and no
existing key is modified. -/
theorem no_dataset_args_spec_unchanged (env : MagicEnv) (cell : String)
    (spec : PyVal) (v1 v2 : String) (y : Bool)
    (hv1 : v1 ∈ rendererVersions "vega")
    (hv2 : v2 ∈ rendererVersions "vega-lite")
    (hp : (if y then env.parseYaml cell else env.parseJson cell) = .ok spec) :
    (vega env ⟨[], v1, y⟩ cell).2 = .ok ⟨"vega", v1, spec⟩ ∧
    (vegalite env ⟨Option.none, v2, y⟩ cell).2 = .ok ⟨"vega-lite", v2, spec⟩ := by
  cases y <;> simp_all [vega, vegalite, mapNamevar]

theorem no_dataset_args_spec_unchanged_witness :
    (vega envEmpty ⟨[], "3", false⟩ "cell").2 =
      .ok ⟨"vega", "3", .dict [("mark", .str "bar")]⟩ ∧
    (vegalite envEmpty ⟨Option.none, "2", false⟩ "cell").2 =
      .ok ⟨"vega-lite", "2", .dict [("mark", .str "bar")]⟩ :=
  no_dataset_args_spec_unchanged envEmpty "cell" (.dict [("mark", .str "bar")])
    "3" "2" false (by decide) (by decide) rfl

/-- Claim C10: every entry the vega loop appends to the data list is a
dict, because the slot name is written into it with item assignment;
consequently a referenced variable holding `None` - which
`_prepare_data` passes through unchanged - makes the invocation fail
with `TypeError` at the name assignment instead of appending a
pass-through entry. -/
theorem vega_entry_requires_dict (env : MagicEnv) (cell var : String)
    (es : List (String × PyVal))
    (hvar : env.userNs.lookup var = some PyVal.none)
    (hcolon : (':' : Char) ∉ var.toList)
    (hparse : env.parseJson cell = .ok (.dict es)) :
    (vega env ⟨[var], "3", false⟩ cell).2 = .error .typeError ∧
    (∀ pairs evs entries, buildDataEntries env pairs = (evs, .ok entries) →
      ∀ e ∈ entries, ∃ fs, e = PyVal.dict fs) := by
  refine ⟨?_, buildDataEntries_ok_dict env⟩
  simp [vega, rendererVersions, RENDERERS, mapNamevar, namevar_single var hcolon,
    hparse, buildDataEntries, _get_variable, hvar, _prepare_data, pySetItem]

theorem vega_entry_requires_dict_witness :
    (vega envNoneVar ⟨["myvar"], "3", false⟩ "cell").2 = .error .typeError ∧
    (∀ pairs evs entries,
      buildDataEntries envNoneVar pairs = (evs, .ok entries) →
      ∀ e ∈ entries, ∃ fs, e = PyVal.dict fs) :=
  vega_entry_requires_dict envNoneVar "cell" "myvar" [("mark", .str "bar")]
    rfl (by decide) rfl

end AltairMagics
